import Mathlib

/-!
Verification of the vidseq frame-sequence controller (src/lib.rs).

The development shallowly embeds the Rust code:

* IEEE-754 floating point (`f32`/`f64`) is modelled exactly over `ℚ`:
  a finite float value is the rational obtained by rounding to the nearest
  value with `m+1` significant bits (round to nearest, ties to even), where
  `m = 23` for `f32` and `m = 52` for `f64`.  Subnormals and overflow to
  infinity are outside the modelled range; every concrete value evaluated in
  this file is a normal value well inside it.
* `std::time::Duration` is modelled by its total length in nanoseconds (`ℕ`);
  `u64`/`u32` values by `ℕ` with explicit `% 2^64` / `% 2^32` where the code
  performs wrapping arithmetic or casts.
* The external gstreamer pipeline is an oracle (`PipelineEnv`): whether the
  seek/step commands are accepted, the stream of bus messages (with their
  inter-arrival delays, for the timeout analysis), and the result of pulling
  a sample from the appsink.
* Fallible operations return `Except VidError α`; the stateful methods of
  `VideoSequence` return the post-state paired with the result.
-/

set_option maxRecDepth 100000

deriving instance DecidableEq for Except

namespace Vidseq

attribute [local semireducible] Rat.mul Rat.add Rat.sub Rat.inv

/-! ### Exact model of IEEE-754 rounding over ℚ -/

/-- Floor of a rational, computed with flooring integer division so that it
kernel-reduces on literals. -/
def ratFloor (x : ℚ) : ℤ := x.num.fdiv (x.den : ℤ)

/-- Round a rational to the nearest integer, ties to even (IEEE default). -/
def rhe (x : ℚ) : ℤ :=
  let f := ratFloor x
  let frac := x - (f : ℚ)
  if frac < 1/2 then f
  else if 1/2 < frac then f + 1
  else if f % 2 = 0 then f else f + 1

/-- Fuel-bounded search for the largest power of two `≤ x`, for `1 ≤ x`. -/
def pow2Up : ℕ → ℚ → ℚ → ℚ
  | 0, _, p => p
  | fuel+1, x, p => if x < 2*p then p else pow2Up fuel x (2*p)

/-- Fuel-bounded search for the largest power of two `≤ x`, for `0 < x < 1`. -/
def pow2Down : ℕ → ℚ → ℚ → ℚ
  | 0, _, p => p
  | fuel+1, x, p => if p ≤ x then p else pow2Down fuel x (p/2)

/-- Largest power of two `≤ x` for positive `x` with exponent in `(-1100, 1100)`
(covers the entire normal `f32`/`f64` ranges). -/
def pow2Floor (x : ℚ) : ℚ :=
  if 1 ≤ x then pow2Up 1100 x 1 else pow2Down 1100 x 1

/-- Round `x` to the nearest binary floating-point value with `m+1`
significant bits, ties to even (`m = 23`: `f32`, `m = 52`: `f64`). -/
def rnd (m : ℕ) (x : ℚ) : ℚ :=
  if x = 0 then 0
  else if 0 < x then
    let ulp := pow2Floor x / 2 ^ m
    (rhe (x / ulp) : ℚ) * ulp
  else
    - ((rhe (-x / (pow2Floor (-x) / 2 ^ m)) : ℚ) * (pow2Floor (-x) / 2 ^ m))

def NANOS_PER_SEC : ℕ := 10 ^ 9

/-- `Duration::as_secs_f32`: `(secs as f32) + (subsec_nanos as f32) / (1e9 as f32)`,
each cast and arithmetic operation rounding to nearest `f32`. -/
def asSecsF32 (ns : ℕ) : ℚ :=
  rnd 23 (rnd 23 ((ns / NANOS_PER_SEC : ℕ) : ℚ) +
    rnd 23 (rnd 23 ((ns % NANOS_PER_SEC : ℕ) : ℚ) / rnd 23 ((NANOS_PER_SEC : ℕ) : ℚ)))

/-- `Duration::as_secs_f64`, analogously in `f64`. -/
def asSecsF64 (ns : ℕ) : ℚ :=
  rnd 52 (rnd 52 ((ns / NANOS_PER_SEC : ℕ) : ℚ) +
    rnd 52 (rnd 52 ((ns % NANOS_PER_SEC : ℕ) : ℚ) / rnd 52 ((NANOS_PER_SEC : ℕ) : ℚ)))

/-- `Duration::from_secs_f32` / `from_secs_f64`: the exact value of the float is
converted to nanoseconds, rounding to nearest, ties to even.  (Negative or
Duration-overflowing inputs panic in Rust and are outside the modelled range.) -/
def fromSecs (x : ℚ) : ℕ := (rhe (x * (NANOS_PER_SEC : ℚ))).toNat

/-- `Duration::mul_f32`: `from_secs_f32(rhs * self.as_secs_f32())`. -/
def durMulF32 (ns : ℕ) (y : ℚ) : ℕ := fromSecs (rnd 23 (y * asSecsF32 ns))

/-- `Duration::div_f32`: `from_secs_f32(self.as_secs_f32() / rhs)`. -/
def durDivF32 (ns : ℕ) (y : ℚ) : ℕ := fromSecs (rnd 23 (asSecsF32 ns / y))

/-- `Duration::mul_f64`: `from_secs_f64(rhs * self.as_secs_f64())`. -/
def durMulF64 (ns : ℕ) (y : ℚ) : ℕ := fromSecs (rnd 52 (y * asSecsF64 ns))

/-- `Duration::div_f64`: `from_secs_f64(self.as_secs_f64() / rhs)`. -/
def durDivF64 (ns : ℕ) (y : ℚ) : ℕ := fromSecs (rnd 52 (asSecsF64 ns / y))

/-- `gstreamer::ClockTime::SECOND` converted to a `Duration`, in nanoseconds. -/
def ONE_SECOND_NS : ℕ := NANOS_PER_SEC

/-- lib.rs:141-143: `per_frame = g_sec.mul_f32(denom as f32).div_f32(num as f32)`,
where `num`/`denom` are the `i32` numerator/denominator of the framerate
fraction; the `as f32` casts round to nearest `f32`. -/
def per_frame (num denom : ℤ) : ℕ :=
  durDivF32 (durMulF32 ONE_SECOND_NS (rnd 23 (denom : ℚ))) (rnd 23 (num : ℚ))

/-- Modelled from the spec: `per_frame_duration = 1_second * denominator /
numerator` "using floating-point intermediate math matching standard IEEE-754
double precision" — the same chain of Duration operations carried out with the
64-bit (`f64`) operations `mul_f64`/`div_f64` and `f64` casts. -/
def per_frame_spec_f64 (num denom : ℤ) : ℕ :=
  durDivF64 (durMulF64 ONE_SECOND_NS (rnd 52 (denom : ℚ))) (rnd 52 (num : ℚ))

/-- Modelled from the spec: the spec formula `1_second * denominator / numerator`
carried out in IEEE-754 single precision (32-bit), i.e. with `mul_f32`/`div_f32`
and `f32` casts. -/
def per_frame_spec_f32 (num denom : ℤ) : ℕ :=
  durDivF32 (durMulF32 ONE_SECOND_NS (rnd 23 (denom : ℚ))) (rnd 23 (num : ℚ))

def U64_MOD : ℕ := 2 ^ 64

/-- lib.rs:152: `frames = (duration.as_nanos() / per_frame.as_nanos()) as u64` —
`u128` flooring division followed by the truncating cast to `u64`.  (A zero
`per_frame` panics in Rust and is outside the modelled range.) -/
def frame_count (durationNs perFrameNs : ℕ) : ℕ :=
  durationNs / perFrameNs % U64_MOD

/-! ### Errors

The Rust code reports every failure as an `anyhow` error built from a distinct
message (or a wrapped gstreamer error); the shallow embedding gives each
distinct failure site its own constructor. -/

inductive VidError where
  /-- lib.rs:170 "frame range exceeds file duration" -/
  | indexOutOfRange
  /-- lib.rs:173 / 203: `Duration` → `ClockTime` conversion failed (`try_into()?`) -/
  | timeConversionOverflow
  /-- lib.rs:187 "seek event not handled" -/
  | seekNotHandled
  /-- lib.rs:208 "Step event not handled" -/
  | stepNotHandled
  /-- lib.rs:56 "Timed out waiting for ASYNC_DONE" -/
  | timedOut
  /-- lib.rs:52: an `Error` message taken from the bus, wrapping its detail -/
  | pipelineError (detail : String)
  /-- lib.rs:36 "live sources not supported" -/
  | unsupportedSource
  /-- lib.rs:32: `set_state` itself returned `StateChangeError` -/
  | stateChangeFailed
  /-- lib.rs:242: `pull_preroll()` failed ("Failed to pull preroll sample") -/
  | pullFailed
  /-- lib.rs:261 "could not grab caps" -/
  | missingCaps
  /-- lib.rs:264 "could not grab buffer" -/
  | missingBuffer
  /-- lib.rs:270 "could not copy full image buffer" -/
  | copyIncomplete
  /-- lib.rs:274-276: `struc.get(name)` failed (field absent or wrong type) -/
  | missingField (name : String)
  /-- lib.rs:279 "Need RGB frame sample to convert to image" -/
  | unexpectedFormat
  /-- lib.rs:283 "image buffer was not sufficient" -/
  | bufferSizeMismatch
deriving DecidableEq

/-! ### The bus and the blocking waits (Pipeline Adapter) -/

/-- A message taken from the pipeline's bus, as distinguished by
`wait_async_done` (lib.rs:50-54): `AsyncDone`, `Error`, or anything else. -/
inductive Msg where
  | asyncDone
  | errorMsg (detail : String)
  | other
deriving DecidableEq

/-- The bus is modelled as the finite stream of messages it will deliver,
each paired with the wall-clock delay (in nanoseconds) between the preceding
`timed_pop` call and this message becoming available; after the list is
exhausted nothing more arrives. -/
abbrev BusStream := List (ℕ × Msg)

/-- `Duration::from_secs(10)` in nanoseconds, the timeout of every wait. -/
def TEN_SECONDS_NS : ℕ := 10 * NANOS_PER_SEC

/-- lib.rs:41-59 `VideoSequenceInner::wait_async_done`: loop popping the bus
with a per-pop `timeout`; `AsyncDone` returns `Ok`, `Error` returns the wrapped
detail, any other message restarts the loop (with a fresh `timeout`), and a
pop that yields nothing within `timeout` returns the timed-out error. -/
def wait_async_done (timeout : ℕ) : BusStream → Except VidError Unit
  | [] => .error .timedOut
  | (d, m) :: rest =>
    if timeout < d then .error .timedOut
    else
      match m with
      | .asyncDone => .ok ()
      | .errorMsg s => .error (.pipelineError s)
      | .other => wait_async_done timeout rest

/-- Total wall-clock time (ns) spent blocked inside `wait_async_done`: each
consumed message contributes its arrival delay, and a pop that times out (or
finds the stream exhausted) contributes the full `timeout`. -/
def wait_elapsed (timeout : ℕ) : BusStream → ℕ
  | [] => timeout
  | (d, m) :: rest =>
    if timeout < d then timeout
    else
      match m with
      | .other => d + wait_elapsed timeout rest
      | _ => d

/-- Result of `gstreamer::Element::set_state` (lib.rs:32). -/
inductive StateChangeSuccess where
  | success
  | async
  | noPreroll
deriving DecidableEq

/-- lib.rs:27-39 `VideoSequenceInner::set_state_with_timeout`: propagate a
`set_state` error, return at once on synchronous success, block on the bus on
`Async`, and reject live (`NoPreroll`) sources. -/
def set_state_with_timeout (setStateResult : Except Unit StateChangeSuccess)
    (bus : BusStream) (timeout : ℕ) : Except VidError Unit :=
  match setStateResult with
  | .error _ => .error .stateChangeFailed
  | .ok .success => .ok ()
  | .ok .async => wait_async_done timeout bus
  | .ok .noPreroll => .error .unsupportedSource

/-! ### Samples, caps and the sample-to-image conversion -/

/-- The first structure of a sample's caps, with the three fields
`convert_sample_to_image` reads; a `none` field models `struc.get` failing
(field absent or of the wrong type).  `width`/`height` are `i32` values. -/
structure CapsStructure where
  width : Option ℤ
  height : Option ℤ
  format : Option String
deriving DecidableEq

/-- A decoded sample: its caps (if any) and the raw bytes of its buffer
(if it carries one). -/
structure Sample where
  caps : Option CapsStructure
  buffer : Option (List ℕ)
deriving DecidableEq

/-- An `image::RgbImage`: dimensions (`u32`) plus the backing byte container. -/
structure RgbImage where
  width : ℕ
  height : ℕ
  data : List ℕ
deriving DecidableEq

def U32_MOD : ℕ := 2 ^ 32

/-- The Rust `as u32` cast of an `i32` value: reduction mod `2^32`. -/
def i32_as_u32 (x : ℤ) : ℕ := (x % (U32_MOD : ℤ)).toNat

/-- `usize::MAX` on a 64-bit target. -/
def USIZE_MAX : ℕ := 2 ^ 64 - 1

/-- `image::RgbImage::from_raw(width, height, buf)`: succeeds iff the checked
`usize` product `3 * width * height` does not overflow and the container holds
at least that many bytes (oversized containers are accepted); the image keeps
the whole container. -/
def rgbimage_from_raw (w h : ℕ) (buf : List ℕ) : Option RgbImage :=
  if 3 * w * h ≤ USIZE_MAX ∧ 3 * w * h ≤ buf.length then some ⟨w, h, buf⟩ else none

/-- lib.rs:258-284 `convert_sample_to_image`: grab caps, grab buffer, copy the
buffer's bytes (a copy into a slice of exactly `buffer.size()` bytes always
copies in full, so the lib.rs:270 short-copy error is not reachable in the
model), read `width`/`height`/`format`, insist on `"RGB"`, and build the
image with `RgbImage::from_raw`. -/
def convert_sample_to_image (sample : Sample) : Except VidError RgbImage :=
  match sample.caps with
  | none => .error .missingCaps
  | some caps =>
    match sample.buffer with
    | none => .error .missingBuffer
    | some buffer =>
      match caps.width with
      | none => .error (.missingField "width")
      | some width =>
        match caps.height with
        | none => .error (.missingField "height")
        | some height =>
          match caps.format with
          | none => .error (.missingField "format")
          | some format =>
            if format ≠ "RGB" then .error .unexpectedFormat
            else
              match rgbimage_from_raw (i32_as_u32 width) (i32_as_u32 height) buffer with
              | some img => .ok img
              | none => .error .bufferSizeMismatch

/-! ### The frame sequence controller -/

/-- lib.rs:74-80 `VideoSequence`: the derived metadata and the cursor.
`per_frame` is the duration in nanoseconds, `frames` and `current_index`
are `u64` values. -/
structure VideoSequence where
  per_frame : ℕ
  frames : ℕ
  current_index : ℕ
deriving DecidableEq

/-- Oracle for one interaction with the external pipeline: whether
`pipeline.seek(..)` is accepted, whether the step event is handled
(`send_event` returns `true`), the bus stream behind the subsequent
`wait_async_done`, and the result of `appsink.pull_preroll()`. -/
structure PipelineEnv where
  seekAccepted : Bool
  stepAccepted : Bool
  bus : BusStream
  pullResult : Except Unit Sample
deriving DecidableEq

/-- `gstreamer::ClockTime` holds nanoseconds in a `u64` whose maximum value is
reserved for `NONE`; converting a `Duration` of this many nanoseconds or more
fails (lib.rs:173/203 `try_into()?`). -/
def CLOCKTIME_NONE : ℕ := 2 ^ 64 - 1

/-- lib.rs:166-194 `VideoSequence::raw_seek`: bounds check (`index > frames`),
convert `per_frame.mul_f64(index as f64)` to a `ClockTime`, issue the
accurate+flushing absolute seek, block for async completion, and only then
record the new cursor.  Returns the post-state paired with the result. -/
def raw_seek (env : PipelineEnv) (s : VideoSequence) (index : ℕ) :
    VideoSequence × Except VidError Unit :=
  if s.frames < index then (s, .error .indexOutOfRange)
  else if CLOCKTIME_NONE ≤ durMulF64 s.per_frame (rnd 52 (index : ℚ)) then
    (s, .error .timeConversionOverflow)
  else if env.seekAccepted = false then (s, .error .seekNotHandled)
  else
    match wait_async_done TEN_SECONDS_NS env.bus with
    | .error e => (s, .error e)
    | .ok _ => ({ s with current_index := index }, .ok ())

/-- lib.rs:196-216 `VideoSequence::step`: no-op on `count == 0`; otherwise
convert `per_frame.mul_f64(count as f64)` to a `ClockTime`, send the step
event, block for async completion, and only then add `count` to the cursor
(`u64` wrapping addition). -/
def step (env : PipelineEnv) (s : VideoSequence) (count : ℕ) :
    VideoSequence × Except VidError Unit :=
  if count = 0 then (s, .ok ())
  else if CLOCKTIME_NONE ≤ durMulF64 s.per_frame (rnd 52 (count : ℚ)) then
    (s, .error .timeConversionOverflow)
  else if env.stepAccepted = false then (s, .error .stepNotHandled)
  else
    match wait_async_done TEN_SECONDS_NS env.bus with
    | .error e => (s, .error e)
    | .ok _ => ({ s with current_index := (s.current_index + count) % U64_MOD }, .ok ())

/-- lib.rs:224 `const MAX_DELTA: u64 = 1` (the spec's `MAX_STEP_DELTA`). -/
def MAX_DELTA : ℕ := 1

/-- lib.rs:218-234 `VideoSequence::seek`: backward → `raw_seek`; forward by
more than `MAX_DELTA` → `raw_seek`; forward by at most `MAX_DELTA` →
`step(delta)`; equal → immediate `Ok` with no pipeline interaction. -/
def seek (env : PipelineEnv) (s : VideoSequence) (index : ℕ) :
    VideoSequence × Except VidError Unit :=
  if index < s.current_index then raw_seek env s index
  else if s.current_index < index then
    if MAX_DELTA < index - s.current_index then raw_seek env s index
    else step env s (index - s.current_index)
  else (s, .ok ())

/-- lib.rs:239-249 `VideoSequence::get_frame`: seek, pull the current sample,
return the distinguished `Ok(None)` when the sample carries no buffer, and
otherwise convert it. -/
def get_frame (env : PipelineEnv) (s : VideoSequence) (index : ℕ) :
    VideoSequence × Except VidError (Option RgbImage) :=
  match seek env s index with
  | (s2, .error e) => (s2, .error e)
  | (s2, .ok _) =>
    match env.pullResult with
    | .error _ => (s2, .error .pullFailed)
    | .ok sample =>
      if sample.buffer.isNone then (s2, .ok none)
      else
        match convert_sample_to_image sample with
        | .ok img => (s2, .ok (some img))
        | .error e => (s2, .error e)

/-- lib.rs:252-254 `VideoSequence::len`. -/
def len (s : VideoSequence) : ℕ := s.frames

/-! ### Operation sequences (for the metadata-immutability claim) -/

/-- One public or private operation on a `VideoSequence`. -/
inductive SeqOp where
  | rawSeekOp (index : ℕ)
  | stepOp (count : ℕ)
  | seekOp (index : ℕ)
  | getFrameOp (index : ℕ)
  | lenOp
deriving DecidableEq

/-- The post-state of running one operation (each against its own pipeline
oracle); `len` takes `&self` and cannot change the state. -/
def applyOp (s : VideoSequence) : PipelineEnv × SeqOp → VideoSequence
  | (env, .rawSeekOp i) => (raw_seek env s i).1
  | (env, .stepOp c) => (step env s c).1
  | (env, .seekOp i) => (seek env s i).1
  | (env, .getFrameOp i) => (get_frame env s i).1
  | (_, .lenOp) => s

/-- The post-state of a whole sequence of operations. -/
def applyOps (s : VideoSequence) (ops : List (PipelineEnv × SeqOp)) : VideoSequence :=
  ops.foldl applyOp s

/-! ### Concrete fixtures used by witnesses and counterexamples -/

/-- A 2×2 all-black RGB sample with well-formed caps. -/
def sampleRGB : Sample :=
  ⟨some ⟨some 2, some 2, some "RGB"⟩, some (List.replicate 12 0)⟩

/-- An oracle that accepts every command, delivers `AsyncDone` immediately,
and pulls `sampleRGB`. -/
def envOk : PipelineEnv := ⟨true, true, [(0, .asyncDone)], .ok sampleRGB⟩

/-- An oracle that rejects both commands and never delivers a message. -/
def envDead : PipelineEnv := ⟨false, false, [], .error ()⟩

/-- A sequence opened on a 30 fps ≈10 s file, positioned at frame 5. -/
def seqAt5 : VideoSequence := ⟨33333335, 300, 5⟩

/-- The same sequence positioned at its estimated last frame,
`current_index = frames = 300` (reachable via `raw_seek(300)`, whose bounds
check `index > frames` passes on equality). -/
def seqAtEnd : VideoSequence := ⟨33333335, 300, 300⟩

/-! ### Helper lemmas -/

/-- The only errors `wait_async_done` can produce are the timeout and a
wrapped bus error. -/
theorem wait_async_done_error_cases (t : ℕ) :
    ∀ (bus : BusStream) (e : VidError), wait_async_done t bus = .error e →
      e = .timedOut ∨ ∃ m, e = .pipelineError m := by
  intro bus
  induction bus with
  | nil =>
    intro e h
    simp only [wait_async_done, Except.error.injEq] at h
    exact Or.inl h.symm
  | cons p rest ih =>
    intro e h
    obtain ⟨d, m⟩ := p
    by_cases hd : t < d
    · simp only [wait_async_done, if_pos hd, Except.error.injEq] at h
      exact Or.inl h.symm
    · cases m with
      | asyncDone => simp [wait_async_done, if_neg hd] at h
      | errorMsg s =>
        simp only [wait_async_done, if_neg hd, Except.error.injEq] at h
        exact Or.inr ⟨s, h.symm⟩
      | other =>
        simp only [wait_async_done, if_neg hd] at h
        exact ih e h

/-- Complete case analysis of `raw_seek`: it either fails with the state
untouched, or every gate passed and the cursor was moved. -/
theorem raw_seek_cases (env : PipelineEnv) (s : VideoSequence) (index : ℕ) :
    (∃ e, raw_seek env s index = (s, .error e)) ∨
    (env.seekAccepted = true ∧ wait_async_done TEN_SECONDS_NS env.bus = .ok () ∧
      raw_seek env s index = ({ s with current_index := index }, .ok ())) := by
  unfold raw_seek
  split
  · exact Or.inl ⟨_, rfl⟩
  · split
    · exact Or.inl ⟨_, rfl⟩
    · split
      · exact Or.inl ⟨_, rfl⟩
      · rename_i hacc
        split
        · exact Or.inl ⟨_, rfl⟩
        · rename_i u hw
          cases u
          exact Or.inr ⟨by simpa using hacc, hw, rfl⟩

/-- Complete case analysis of `step`. -/
theorem step_cases (env : PipelineEnv) (s : VideoSequence) (count : ℕ) :
    (count = 0 ∧ step env s count = (s, .ok ())) ∨
    (∃ e, step env s count = (s, .error e)) ∨
    (count ≠ 0 ∧ env.stepAccepted = true ∧
      wait_async_done TEN_SECONDS_NS env.bus = .ok () ∧
      step env s count =
        ({ s with current_index := (s.current_index + count) % U64_MOD }, .ok ())) := by
  unfold step
  split
  · rename_i hc
    exact Or.inl ⟨hc, rfl⟩
  · rename_i hc
    split
    · exact Or.inr (Or.inl ⟨_, rfl⟩)
    · split
      · exact Or.inr (Or.inl ⟨_, rfl⟩)
      · rename_i hacc
        split
        · exact Or.inr (Or.inl ⟨_, rfl⟩)
        · rename_i u hw
          cases u
          exact Or.inr (Or.inr ⟨hc, by simpa using hacc, hw, rfl⟩)

/-- The errors `raw_seek` can produce, with `indexOutOfRange` tied to the
failed bounds check. -/
theorem raw_seek_error_cases (env : PipelineEnv) (s : VideoSequence) (index : ℕ)
    (e : VidError) (h : (raw_seek env s index).2 = .error e) :
    (e = .indexOutOfRange ∧ s.frames < index) ∨ e = .timeConversionOverflow ∨
      e = .seekNotHandled ∨ e = .timedOut ∨ ∃ m, e = .pipelineError m := by
  unfold raw_seek at h
  split at h
  · rename_i hidx
    simp at h
    exact Or.inl ⟨h.symm, hidx⟩
  · split at h
    · simp at h
      exact Or.inr (Or.inl h.symm)
    · split at h
      · simp at h
        exact Or.inr (Or.inr (Or.inl h.symm))
      · split at h
        · rename_i e2 hw
          simp at h
          subst h
          rcases wait_async_done_error_cases _ _ _ hw with h2 | ⟨m, h2⟩
          · exact Or.inr (Or.inr (Or.inr (Or.inl h2)))
          · exact Or.inr (Or.inr (Or.inr (Or.inr ⟨m, h2⟩)))
        · simp at h

/-- The errors `step` can produce; the bounds-check error is not among them. -/
theorem step_error_cases (env : PipelineEnv) (s : VideoSequence) (count : ℕ)
    (e : VidError) (h : (step env s count).2 = .error e) :
    e = .timeConversionOverflow ∨ e = .stepNotHandled ∨ e = .timedOut ∨
      ∃ m, e = .pipelineError m := by
  unfold step at h
  split at h
  · simp at h
  · split at h
    · simp at h
      exact Or.inl h.symm
    · split at h
      · simp at h
        exact Or.inr (Or.inl h.symm)
      · split at h
        · rename_i e2 hw
          simp at h
          subst h
          rcases wait_async_done_error_cases _ _ _ hw with h2 | ⟨m, h2⟩
          · exact Or.inr (Or.inr (Or.inl h2))
          · exact Or.inr (Or.inr (Or.inr ⟨m, h2⟩))
        · simp at h

/-- The errors `seek` can produce, combining the two dispatch targets. -/
theorem seek_error_cases (env : PipelineEnv) (s : VideoSequence) (index : ℕ)
    (e : VidError) (h : (seek env s index).2 = .error e) :
    (e = .indexOutOfRange ∧ s.frames < index) ∨ e = .timeConversionOverflow ∨
      e = .seekNotHandled ∨ e = .stepNotHandled ∨ e = .timedOut ∨
      ∃ m, e = .pipelineError m := by
  unfold seek at h
  split at h
  · rcases raw_seek_error_cases env s index e h with h2 | h2 | h2 | h2 | h2
    · exact Or.inl h2
    · exact Or.inr (Or.inl h2)
    · exact Or.inr (Or.inr (Or.inl h2))
    · exact Or.inr (Or.inr (Or.inr (Or.inr (Or.inl h2))))
    · exact Or.inr (Or.inr (Or.inr (Or.inr (Or.inr h2))))
  · split at h
    · split at h
      · rcases raw_seek_error_cases env s index e h with h2 | h2 | h2 | h2 | h2
        · exact Or.inl h2
        · exact Or.inr (Or.inl h2)
        · exact Or.inr (Or.inr (Or.inl h2))
        · exact Or.inr (Or.inr (Or.inr (Or.inr (Or.inl h2))))
        · exact Or.inr (Or.inr (Or.inr (Or.inr (Or.inr h2))))
      · rcases step_error_cases env s _ e h with h2 | h2 | h2 | h2
        · exact Or.inr (Or.inl h2)
        · exact Or.inr (Or.inr (Or.inr (Or.inl h2)))
        · exact Or.inr (Or.inr (Or.inr (Or.inr (Or.inl h2))))
        · exact Or.inr (Or.inr (Or.inr (Or.inr (Or.inr h2))))
    · simp at h

/-! ### Claim theorems -/

/-- C1: `seek(index)` dispatches on the distance to `current_index`:
backward → `raw_seek`; forward by at most `MAX_DELTA = 1` → `step(delta)`;
forward by more → `raw_seek`; equal → immediate success with no pipeline
operation. -/
theorem seek_dispatch (env : PipelineEnv) (s : VideoSequence) (index : ℕ) :
    (index < s.current_index → seek env s index = raw_seek env s index) ∧
    (s.current_index < index → index - s.current_index ≤ MAX_DELTA →
      seek env s index = step env s (index - s.current_index)) ∧
    (s.current_index < index → MAX_DELTA < index - s.current_index →
      seek env s index = raw_seek env s index) ∧
    (index = s.current_index → seek env s index = (s, .ok ())) ∧
    MAX_DELTA = 1 := by
  refine ⟨fun h1 => ?_, fun h1 h2 => ?_, fun h1 h2 => ?_, fun h1 => ?_, rfl⟩
  · unfold seek
    rw [if_pos h1]
  · unfold seek
    rw [if_neg (by omega), if_pos h1]
    exact if_neg (Nat.not_lt.mpr h2)
  · unfold seek
    rw [if_neg (by omega), if_pos h1]
    exact if_pos h2
  · unfold seek
    rw [if_neg (by omega), if_neg (by omega)]

/-- C1 witness: concrete dispatches from `current_index = 5`. -/
theorem seek_dispatch_witness :
    seek envOk seqAt5 3 = raw_seek envOk seqAt5 3 ∧
    seek envOk seqAt5 6 = step envOk seqAt5 1 ∧
    seek envOk seqAt5 9 = raw_seek envOk seqAt5 9 ∧
    seek envOk seqAt5 5 = (seqAt5, .ok ()) := by
  refine ⟨(seek_dispatch envOk seqAt5 3).1 (by decide), ?_,
    (seek_dispatch envOk seqAt5 9).2.2.1 (by decide) (by decide),
    (seek_dispatch envOk seqAt5 5).2.2.2.1 (by decide)⟩
  exact (seek_dispatch envOk seqAt5 6).2.1 (by decide) (by decide)

/-- C4: with the stream duration a `u64` number of nanoseconds (it comes from
a gstreamer `ClockTime`) and a positive per-frame duration, `frame_count` is
exactly the floor of their quotient, and the estimate never claims more frames
than the duration holds: `per_frame * frame_count ≤ duration`. -/
theorem frame_count_floor (durationNs perFrameNs : ℕ)
    (h1 : durationNs < U64_MOD) (_hpos : 0 < perFrameNs) :
    frame_count durationNs perFrameNs = durationNs / perFrameNs ∧
    perFrameNs * frame_count durationNs perFrameNs ≤ durationNs := by
  have hq : durationNs / perFrameNs < U64_MOD :=
    Nat.lt_of_le_of_lt (Nat.div_le_self _ _) h1
  have heq : frame_count durationNs perFrameNs = durationNs / perFrameNs :=
    Nat.mod_eq_of_lt hq
  refine ⟨heq, ?_⟩
  rw [heq, Nat.mul_comm]
  exact Nat.div_mul_le_self _ _

/-- C4 witness: a 10-second stream at 33333333 ns per frame has 300 frames. -/
theorem frame_count_floor_witness :
    (10 ^ 10 : ℕ) < U64_MOD ∧ (0 : ℕ) < 33333333 ∧
    frame_count (10 ^ 10) 33333333 = 10 ^ 10 / 33333333 ∧
    33333333 * frame_count (10 ^ 10) 33333333 ≤ 10 ^ 10 := by
  have h := frame_count_floor (10 ^ 10) 33333333 (by decide) (by decide)
  exact ⟨by decide, by decide, h.1, h.2⟩

/-- C8 counterexample: a bus that delivers an unrelated message after 9 s and
`AsyncDone` after 9 more seconds makes `wait_async_done` return success after
18 s of wall-clock blocking — beyond the 10-second deadline and without the
timed-out error, because each unrelated message restarts the timeout. -/
theorem wait_not_deadline_bounded :
    wait_async_done TEN_SECONDS_NS
        [(9 * NANOS_PER_SEC, .other), (9 * NANOS_PER_SEC, .asyncDone)] = .ok () ∧
    wait_elapsed TEN_SECONDS_NS
        [(9 * NANOS_PER_SEC, .other), (9 * NANOS_PER_SEC, .asyncDone)] =
      18 * NANOS_PER_SEC ∧
    TEN_SECONDS_NS < 18 * NANOS_PER_SEC :=
  ⟨by decide, by decide, by decide⟩

/-- C8 amended: each single blocking pop is bounded by the 10-second timeout,
so a whole `wait_async_done` call is bounded by `(number of messages + 1) ×
timeout` wall-clock; it is not bounded by the timeout itself, since every
unrelated (non-AsyncDone, non-Error) message restarts the clock. -/
theorem wait_elapsed_bound (timeout : ℕ) (bus : BusStream) :
    wait_elapsed timeout bus ≤ (bus.length + 1) * timeout := by
  induction bus with
  | nil =>
    simp [wait_elapsed]
  | cons p rest ih =>
    obtain ⟨d, m⟩ := p
    simp only [wait_elapsed, List.length_cons]
    split
    · exact Nat.le_mul_of_pos_left _ (by omega)
    · rename_i hd
      cases m with
      | asyncDone =>
        exact Nat.le_trans (Nat.le_of_not_lt hd) (Nat.le_mul_of_pos_left _ (by omega))
      | errorMsg s =>
        exact Nat.le_trans (Nat.le_of_not_lt hd) (Nat.le_mul_of_pos_left _ (by omega))
      | other =>
        calc d + wait_elapsed timeout rest ≤ timeout + (rest.length + 1) * timeout :=
              Nat.add_le_add (Nat.le_of_not_lt hd) ih
          _ = (rest.length + 1 + 1) * timeout := by ring

/-- The errors `convert_sample_to_image` can produce; `missingBuffer` arises
only when the sample carries no buffer. -/
theorem convert_error_cases (sample : Sample) (e : VidError)
    (h : convert_sample_to_image sample = .error e) :
    e = .missingCaps ∨ (e = .missingBuffer ∧ sample.buffer = none) ∨
      (∃ n, e = .missingField n) ∨ e = .unexpectedFormat ∨
      e = .bufferSizeMismatch := by
  obtain ⟨caps, buffer⟩ := sample
  cases caps with
  | none =>
    simp only [convert_sample_to_image, Except.error.injEq] at h
    exact Or.inl h.symm
  | some c =>
    cases buffer with
    | none =>
      simp only [convert_sample_to_image, Except.error.injEq] at h
      exact Or.inr (Or.inl ⟨h.symm, rfl⟩)
    | some buf =>
      obtain ⟨cw, chgt, cf⟩ := c
      cases cw with
      | none =>
        simp only [convert_sample_to_image, Except.error.injEq] at h
        exact Or.inr (Or.inr (Or.inl ⟨_, h.symm⟩))
      | some w =>
        cases chgt with
        | none =>
          simp only [convert_sample_to_image, Except.error.injEq] at h
          exact Or.inr (Or.inr (Or.inl ⟨_, h.symm⟩))
        | some hgt =>
          cases cf with
          | none =>
            simp only [convert_sample_to_image, Except.error.injEq] at h
            exact Or.inr (Or.inr (Or.inl ⟨_, h.symm⟩))
          | some f =>
            simp only [convert_sample_to_image] at h
            split at h
            · simp only [Except.error.injEq] at h
              exact Or.inr (Or.inr (Or.inr (Or.inl h.symm)))
            · split at h
              · simp at h
              · simp only [Except.error.injEq] at h
                exact Or.inr (Or.inr (Or.inr (Or.inr h.symm)))

/-- `get_frame` leaves exactly the state that `seek` left. -/
theorem get_frame_state (env : PipelineEnv) (s : VideoSequence) (index : ℕ) :
    (get_frame env s index).1 = (seek env s index).1 := by
  unfold get_frame
  split
  · rename_i s2 e hs
    rw [hs]
  · rename_i s2 u hs
    rw [hs]
    split
    · rfl
    · split
      · rfl
      · split <;> rfl

/-- `seek` either fails leaving the state unchanged or succeeds; in every
case the metadata fields survive. -/
theorem seek_meta (env : PipelineEnv) (s : VideoSequence) (index : ℕ) :
    (seek env s index).1.per_frame = s.per_frame ∧
    (seek env s index).1.frames = s.frames := by
  unfold seek
  split
  · rcases raw_seek_cases env s index with ⟨e, he⟩ | ⟨_, _, he⟩ <;> rw [he] <;>
      exact ⟨rfl, rfl⟩
  · split
    · split
      · rcases raw_seek_cases env s index with ⟨e, he⟩ | ⟨_, _, he⟩ <;> rw [he] <;>
          exact ⟨rfl, rfl⟩
      · rcases step_cases env s (index - s.current_index) with
          ⟨_, he⟩ | ⟨e, he⟩ | ⟨_, _, _, he⟩ <;> rw [he] <;> exact ⟨rfl, rfl⟩
    · exact ⟨rfl, rfl⟩

/-- C2 counterexample: with the cursor already at `current_index = frames =
300` (reachable, since `raw_seek(300)` passes the `index > frames` bounds
check), `get_frame(301)` dispatches to `step`, which performs no bounds check:
the call succeeds with an image instead of failing with the
index-out-of-range error, although `301 > frame_count`. -/
theorem get_frame_past_end_no_bounds_error :
    seqAtEnd.frames < 301 ∧
    (get_frame envOk seqAtEnd 301).2 = .ok (some ⟨2, 2, List.replicate 12 0⟩) :=
  ⟨by decide, by decide⟩

/-- C2 amended: `raw_seek(index)` fails with the index-out-of-range error
exactly when `index > frames` (so `index == frames` passes the bounds check),
and `get_frame(index)` can return that error only when `index > frames`; but
`get_frame` performs the bounds check only on the dispatch paths that reach
`raw_seek`, so for `index > frames` it does not necessarily fail (see the
counterexample). -/
theorem bounds_check (env : PipelineEnv) (s : VideoSequence) (index : ℕ) :
    ((raw_seek env s index).2 = .error .indexOutOfRange ↔ s.frames < index) ∧
    ((get_frame env s index).2 = .error .indexOutOfRange → s.frames < index) := by
  constructor
  · constructor
    · intro h
      rcases raw_seek_error_cases env s index _ h with ⟨_, hi⟩ | h2 | h2 | h2 | ⟨m, h2⟩
      · exact hi
      · cases h2
      · cases h2
      · cases h2
      · cases h2
    · intro hi
      unfold raw_seek
      rw [if_pos hi]
  · intro h
    unfold get_frame at h
    split at h
    · rename_i s2 e hs
      simp at h
      subst h
      have h2 : (seek env s index).2 = .error .indexOutOfRange := by rw [hs]
      rcases seek_error_cases env s index _ h2 with ⟨_, hi⟩ | h3 | h3 | h3 | h3 | ⟨m, h3⟩
      · exact hi
      · cases h3
      · cases h3
      · cases h3
      · cases h3
      · cases h3
    · rename_i s2 u hs
      split at h
      · simp at h
      · rename_i sample hp
        split at h
        · simp at h
        · split at h
          · simp at h
          · rename_i e3 hc
            simp at h
            subst h
            rcases convert_error_cases sample _ hc with
              h4 | ⟨h4, _⟩ | ⟨n, h4⟩ | h4 | h4
            · cases h4
            · cases h4
            · cases h4
            · cases h4
            · cases h4

/-- C2 witness: the bounds check itself fires on a concrete out-of-range
index. -/
theorem bounds_check_witness :
    (raw_seek envDead seqAt5 301).2 = .error .indexOutOfRange :=
  (bounds_check envDead seqAt5 301).1.mpr (by decide)

/-- C3 counterexample: at framerate 30/1 the code's `mul_f32`/`div_f32`
computation yields 33333335 ns per frame, while the spec's double-precision
formula yields 33333333 ns — the intermediate arithmetic is not IEEE-754
double precision. -/
theorem per_frame_not_double_precision :
    per_frame 30 1 ≠ per_frame_spec_f64 30 1 ∧
    per_frame 30 1 = 33333335 ∧ per_frame_spec_f64 30 1 = 33333333 :=
  ⟨by decide, by decide, by decide⟩

/-- C3 amended: `per_frame` is the spec formula `1_second * denominator /
numerator` computed with IEEE-754 single-precision (32-bit) intermediate
arithmetic, for every framerate fraction; at 30/1 this gives 33333335 ns. -/
theorem per_frame_single_precision :
    (∀ num denom : ℤ, per_frame num denom = per_frame_spec_f32 num denom) ∧
    per_frame 30 1 = 33333335 :=
  ⟨fun _ _ => rfl, by decide⟩

/-- C5: the cursor is committed only after the full success path: when
`raw_seek` returns `Ok` the seek was accepted and the async wait succeeded and
only then `current_index = index`; when `step` returns `Ok` the cursor moved
by `count` (`u64` wrapping add) after acceptance and async completion (unless
`count = 0`, the documented no-op); on every error both leave the whole state
— in particular the cursor — unchanged. -/
theorem cursor_atomicity (env : PipelineEnv) (s : VideoSequence) (index count : ℕ)
    (h : s.current_index < U64_MOD) :
    ((raw_seek env s index).2 = .ok () →
      env.seekAccepted = true ∧ wait_async_done TEN_SECONDS_NS env.bus = .ok () ∧
      (raw_seek env s index).1 = { s with current_index := index }) ∧
    (∀ e, (raw_seek env s index).2 = .error e → (raw_seek env s index).1 = s) ∧
    ((step env s count).2 = .ok () →
      (step env s count).1 =
        { s with current_index := (s.current_index + count) % U64_MOD } ∧
      (count ≠ 0 → env.stepAccepted = true ∧
        wait_async_done TEN_SECONDS_NS env.bus = .ok ())) ∧
    (∀ e, (step env s count).2 = .error e → (step env s count).1 = s) := by
  refine ⟨?_, ?_, ?_, ?_⟩
  · intro hok
    rcases raw_seek_cases env s index with ⟨e, he⟩ | ⟨ha, hw, he⟩
    · rw [he] at hok
      simp at hok
    · exact ⟨ha, hw, by rw [he]⟩
  · intro e he2
    rcases raw_seek_cases env s index with ⟨e2, he⟩ | ⟨ha, hw, he⟩
    · rw [he]
    · rw [he] at he2
      simp at he2
  · intro hok
    rcases step_cases env s count with ⟨hc, he⟩ | ⟨e, he⟩ | ⟨hc, ha, hw, he⟩
    · subst hc
      rw [he]
      constructor
      · have hmod : (s.current_index + 0) % U64_MOD = s.current_index := by
          rw [Nat.add_zero]
          exact Nat.mod_eq_of_lt h
        cases s
        simp only at hmod ⊢
        rw [hmod]
      · intro hc2
        exact absurd rfl hc2
    · rw [he] at hok
      simp at hok
    · rw [he]
      exact ⟨rfl, fun _ => ⟨ha, hw⟩⟩
  · intro e he2
    rcases step_cases env s count with ⟨hc, he⟩ | ⟨e2, he⟩ | ⟨hc, ha, hw, he⟩
    · rw [he] at he2
      simp at he2
    · rw [he]
    · rw [he] at he2
      simp at he2

/-- C5 witness: a successful `raw_seek` moves the cursor to 7; a `step` whose
event is rejected leaves the state untouched. -/
theorem cursor_atomicity_witness :
    (raw_seek envOk seqAt5 7).1 = { seqAt5 with current_index := 7 } ∧
    (step envDead seqAt5 1).1 = seqAt5 := by
  constructor
  · exact ((cursor_atomicity envOk seqAt5 7 1 (by decide)).1 (by decide)).2.2
  · exact (cursor_atomicity envDead seqAt5 7 1 (by decide)).2.2.2
      .stepNotHandled (by decide)

/-- C6: a sample with well-formed caps whose format tag is not `"RGB"` is
rejected with the unexpected-format error, whatever the buffer contents and
size. -/
theorem convert_rejects_non_rgb (w hgt : ℤ) (f : String) (bytes : List ℕ)
    (hf : f ≠ "RGB") :
    convert_sample_to_image ⟨some ⟨some w, some hgt, some f⟩, some bytes⟩ =
      .error .unexpectedFormat := by
  simp only [convert_sample_to_image]
  rw [if_pos hf]

/-- C6 witness: an I420-tagged sample with a plausibly-sized buffer (12 =
2·2·3 bytes) is still rejected. -/
theorem convert_rejects_non_rgb_witness :
    ("I420" : String) ≠ "RGB" ∧
    convert_sample_to_image ⟨some ⟨some 2, some 2, some "I420"⟩,
        some (List.replicate 12 0)⟩ = .error .unexpectedFormat :=
  ⟨by decide, convert_rejects_non_rgb 2 2 "I420" (List.replicate 12 0) (by decide)⟩

/-- C7 counterexample: a 1×1 RGB sample with a 4-byte buffer (4 ≠ 1·1·3 = 3,
the "larger" case) is *not* rejected: `RgbImage::from_raw` accepts any buffer
at least as large as required, so `convert` succeeds. -/
theorem convert_accepts_oversized_buffer :
    ¬ ((4 : ℕ) = 1 * 1 * 3) ∧
    convert_sample_to_image ⟨some ⟨some 1, some 1, some "RGB"⟩,
        some [0, 0, 0, 0]⟩ = .ok ⟨1, 1, [0, 0, 0, 0]⟩ :=
  ⟨by decide, by decide⟩

/-- C7 amended: `convert` fails with the buffer-size error exactly when the
byte count is *smaller* than `width * height * 3` (after the `u32` casts, and
also when that product overflows `usize`); a byte count equal to or larger
than the product is accepted and the image keeps the whole buffer. -/
theorem convert_buffer_size (w hgt : ℤ) (bytes : List ℕ) :
    (bytes.length < 3 * i32_as_u32 w * i32_as_u32 hgt →
      convert_sample_to_image ⟨some ⟨some w, some hgt, some "RGB"⟩, some bytes⟩ =
        .error .bufferSizeMismatch) ∧
    (3 * i32_as_u32 w * i32_as_u32 hgt ≤ bytes.length →
      3 * i32_as_u32 w * i32_as_u32 hgt ≤ USIZE_MAX →
      convert_sample_to_image ⟨some ⟨some w, some hgt, some "RGB"⟩, some bytes⟩ =
        .ok ⟨i32_as_u32 w, i32_as_u32 hgt, bytes⟩) := by
  constructor
  · intro hlen
    simp only [convert_sample_to_image]
    rw [if_neg (by simp)]
    unfold rgbimage_from_raw
    rw [if_neg fun hh => absurd hh.2 (Nat.not_le_of_lt hlen)]
  · intro h1 h2
    simp only [convert_sample_to_image]
    rw [if_neg (by simp)]
    unfold rgbimage_from_raw
    rw [if_pos ⟨h2, h1⟩]

/-- C7 witness: a 2-byte buffer for a 1×1 image is rejected; a 3-byte buffer
is accepted. -/
theorem convert_buffer_size_witness :
    ((2 : ℕ) < 3 ∧
      convert_sample_to_image ⟨some ⟨some 1, some 1, some "RGB"⟩, some [0, 0]⟩ =
        .error .bufferSizeMismatch) ∧
    ((3 : ℕ) ≤ 3 ∧
      convert_sample_to_image ⟨some ⟨some 1, some 1, some "RGB"⟩, some [7, 8, 9]⟩ =
        .ok ⟨1, 1, [7, 8, 9]⟩) :=
  ⟨⟨by decide, (convert_buffer_size 1 1 [0, 0]).1 (by decide)⟩,
   ⟨by decide, (convert_buffer_size 1 1 [7, 8, 9]).2 (by decide) (by decide)⟩⟩

/-- C9: `per_frame` and `frames` are immutable after open — every sequence of
operations (each interacting with its own pipeline oracle) leaves them
unchanged, mutating at most `current_index`, so `len` returns the same value
throughout. -/
theorem metadata_immutable (s : VideoSequence) (ops : List (PipelineEnv × SeqOp)) :
    (applyOps s ops).per_frame = s.per_frame ∧
    (applyOps s ops).frames = s.frames ∧
    len (applyOps s ops) = len s := by
  induction ops generalizing s with
  | nil => exact ⟨rfl, rfl, rfl⟩
  | cons p rest ih =>
    obtain ⟨env, op⟩ := p
    have h1 : (applyOp s (env, op)).per_frame = s.per_frame ∧
        (applyOp s (env, op)).frames = s.frames := by
      cases op with
      | rawSeekOp i =>
        rcases raw_seek_cases env s i with ⟨e, he⟩ | ⟨_, _, he⟩ <;>
          simp [applyOp, he]
      | stepOp c =>
        rcases step_cases env s c with ⟨_, he⟩ | ⟨e, he⟩ | ⟨_, _, _, he⟩ <;>
          simp [applyOp, he]
      | seekOp i => exact seek_meta env s i
      | getFrameOp i =>
        show (get_frame env s i).1.per_frame = s.per_frame ∧
          (get_frame env s i).1.frames = s.frames
        rw [get_frame_state env s i]
        exact seek_meta env s i
      | lenOp => exact ⟨rfl, rfl⟩
    have h2 := ih (applyOp s (env, op))
    have hfold : applyOps s ((env, op) :: rest) = applyOps (applyOp s (env, op)) rest := rfl
    refine ⟨?_, ?_, ?_⟩
    · rw [hfold, h2.1, h1.1]
    · rw [hfold, h2.2.1, h1.2]
    · show (applyOps s ((env, op) :: rest)).frames = s.frames
      rw [hfold, h2.2.1, h1.2]

/-- C10: the missing-buffer branch of `convert` is unreachable from
`get_frame`: `get_frame` never returns the missing-buffer error (it returns
the distinguished `Ok(None)` for a bufferless sample before calling
`convert`), and `convert` itself returns that error only for samples whose
buffer is absent. -/
theorem get_frame_no_missing_buffer (env : PipelineEnv) (s : VideoSequence) (index : ℕ) :
    (get_frame env s index).2 ≠ .error .missingBuffer ∧
    (∀ sample : Sample, sample.buffer ≠ none →
      convert_sample_to_image sample ≠ .error .missingBuffer) := by
  constructor
  · intro h
    unfold get_frame at h
    split at h
    · rename_i s2 e hs
      simp at h
      subst h
      rcases seek_error_cases env s index _ (by rw [hs]) with
        ⟨h3, _⟩ | h3 | h3 | h3 | h3 | ⟨m, h3⟩ <;> cases h3
    · rename_i s2 u hs
      split at h
      · simp at h
      · rename_i sample hp
        split at h
        · simp at h
        · rename_i hbuf
          split at h
          · simp at h
          · rename_i e3 hc
            simp at h
            subst h
            rcases convert_error_cases sample _ hc with
              h4 | ⟨_, hb⟩ | ⟨n, h4⟩ | h4 | h4
            · cases h4
            · exact hbuf (by rw [hb]; rfl)
            · cases h4
            · cases h4
            · cases h4
  · intro sample hbuf hconv
    rcases convert_error_cases sample _ hconv with
      h4 | ⟨_, hb⟩ | ⟨n, h4⟩ | h4 | h4
    · cases h4
    · exact hbuf hb
    · cases h4
    · cases h4
    · cases h4

/-- C10 witness: on a concrete run pulling a sample that does carry a buffer,
neither `get_frame` nor `convert` yields the missing-buffer error. -/
theorem get_frame_no_missing_buffer_witness :
    (get_frame envOk seqAt5 5).2 ≠ .error .missingBuffer ∧
    convert_sample_to_image sampleRGB ≠ .error .missingBuffer :=
  ⟨(get_frame_no_missing_buffer envOk seqAt5 5).1,
   (get_frame_no_missing_buffer envOk seqAt5 5).2 sampleRGB (by decide)⟩

end Vidseq
